import Mathlib

/-!
# Verification of the warmup-dashboard event ingestion and aggregation core

Shallow embedding of the TypeScript core of the `warmup-dashboard` repository:

* `src/lib/db.ts` (source file `addEvent`, `addPostEvent`, `getRecentEvents`,
  `getStatsForDate`, `getRecentPostEvents`, `getPostStatsForDate`);
* the ingestion routes `src/app/api/log/route.ts` and
  `src/app/api/posts/log/route.ts`;
* the query routes (warmup stats `GET`, posts `GET`) and the administrative
  clear routes for each stream.

The Redis backend is modelled as a pure state value: the bounded event log of
each stream is a `List` with the most recent entry at the head (`lpush` then
`ltrim 0 (max-1)` becomes cons-then-take), and the per-day counter records are
an association list keyed by `(date, entityId)` — the Redis keys are
`{stream}:stats:{date}:{entityId}`, so the `(date, entityId)` pair is exactly
the variable part of the key.  `Date.now()` and the computed `today` date
string are ambient inputs, passed as explicit parameters `now : Int` and
`today : String`.  JavaScript numbers are modelled as `Int` (all arithmetic
the core performs is integral increments/decrements, exact in doubles).
String fields whose only boundary check is JS truthiness (`!event.profileId`)
are modelled as `String`, with `""` standing for both the empty string and an
absent field; optional fields that the core reads (`username`, `handle`,
`receivedAt`) are `Option`s, with JS truthiness of an optional string given by
`truthy` below.  The opaque `details` bag is never read by the core and is
omitted.
-/

/-- JS truthiness for an optional string field: `undefined` and `""` are
falsy, every other string is truthy. -/
def truthy : Option String → Bool
  | none => false
  | some s => s ≠ ""

/-- Type `ActivityEvent` from `src/lib/db.ts`: a warmup-stream event. -/
structure ActivityEvent where
  timestamp : Int
  profileId : String
  username : Option String
  action : String
  receivedAt : Option Int
deriving Repr, DecidableEq

/-- Type `ProfileStats` from `src/lib/db.ts`: the per-profile per-day warmup
counter record. -/
structure ProfileStats where
  likes : Int
  bookmarks : Int
  searches : Int
  explores : Int
  videos : Int
  sessions : Int
  lastActivity : Option Int
  username : Option String
deriving Repr, DecidableEq

/-- The zeroed record synthesized by `addEvent` when no record exists yet. -/
def emptyProfileStats : ProfileStats :=
  { likes := 0, bookmarks := 0, searches := 0, explores := 0, videos := 0,
    sessions := 0, lastActivity := none, username := none }

/-- Type `PostEvent` from `src/lib/db.ts`: a post-lifecycle event.  The TS type
annotates `action` with a union of three literals, but the runtime value is an
arbitrary string checked only at the route boundary, so it is a `String`
here. -/
structure PostEvent where
  timestamp : Int
  personaId : String
  handle : Option String
  action : String
  receivedAt : Option Int
deriving Repr, DecidableEq

/-- Type `PostStats` from `src/lib/db.ts`: the per-persona per-day post counter
record. -/
structure PostStats where
  scheduled : Int
  posted : Int
  failed : Int
  lastActivity : Option Int
  handle : Option String
deriving Repr, DecidableEq

/-- The zeroed post record synthesized by `addPostEvent`. -/
def emptyPostStats : PostStats :=
  { scheduled := 0, posted := 0, failed := 0, lastActivity := none,
    handle := none }

/-- The per-day counter records of one stream: an association list from
`(date, entityId)` — the variable part of the Redis key
`{stream}:stats:{date}:{entityId}` — to the stored record. -/
abbrev StatsMap (α : Type) := List ((String × String) × α)

/-- Operation `redis.get` on a stats key. -/
def StatsMap.get {α : Type} (m : StatsMap α) (k : String × String) : Option α :=
  (m.find? (fun p => p.1 = k)).map (·.2)

/-- Operation `redis.set` on a stats key (the 7-day expiry is a retention effect with no
bearing on any claim and is not modelled). -/
def StatsMap.set {α : Type} (m : StatsMap α) (k : String × String) (v : α) :
    StatsMap α :=
  (k, v) :: m.filter (fun p => ¬ p.1 = k)

/-- Constant `MAX_EVENTS` from `src/lib/db.ts`. -/
def MAX_EVENTS : Nat := 500

/-- Constant `MAX_POST_EVENTS` from `src/lib/db.ts`. -/
def MAX_POST_EVENTS : Nat := 200

/-- The warmup stream's share of the Redis state: the `warmup:events` list
(most recent first) and the `warmup:stats:{date}:{profileId}` records. -/
structure WarmupStore where
  events : List ActivityEvent
  stats : StatsMap ProfileStats
deriving Repr, DecidableEq

/-- The post stream's share of the Redis state: the `posts:events` list and
the `posts:stats:{date}:{personaId}` records. -/
structure PostStore where
  events : List PostEvent
  stats : StatsMap PostStats
deriving Repr, DecidableEq

/-- Statement `event.receivedAt = Date.now()` — the first statement of both `addEvent`
and `addPostEvent`: the server stamps the arrival time, overwriting any
client-supplied value. -/
def stampReceived (now : Int) (e : ActivityEvent) : ActivityEvent :=
  { e with receivedAt := some now }

/-- The post-stream version of the `receivedAt` stamp. -/
def stampPostReceived (now : Int) (e : PostEvent) : PostEvent :=
  { e with receivedAt := some now }

/-- The `switch (event.action)` of `addEvent`: the action→delta table of the
warmup stream.  A JS `switch` compares the scrutinee against each case label
in turn, which is exactly this if-chain; actions matching no case fall
through and change nothing. -/
def applyWarmupAction (action : String) (s : ProfileStats) : ProfileStats :=
  if action = "like" then { s with likes := s.likes + 1 }
  else if action = "bookmark" then { s with bookmarks := s.bookmarks + 1 }
  else if action = "search" then { s with searches := s.searches + 1 }
  else if action = "explore" then { s with explores := s.explores + 1 }
  else if action = "video_watch" then { s with videos := s.videos + 1 }
  else if action = "session_start" then { s with sessions := s.sessions + 1 }
  else s

/-- The record update performed by `addEvent` on the record read for the
event's key: `stats.lastActivity = event.timestamp`, the sticky
`if (event.username) stats.username = event.username`, then the action
switch. -/
def warmupStep (e : ActivityEvent) (s : ProfileStats) : ProfileStats :=
  applyWarmupAction e.action
    { s with
      lastActivity := some e.timestamp,
      username := if truthy e.username then e.username else s.username }

/-- Function `addEvent` from `src/lib/db.ts`: stamp `receivedAt`, `lpush` + `ltrim` on
`warmup:events`, then read-modify-write the profile's record for `today`. -/
def addEvent (now : Int) (today : String) (event : ActivityEvent)
    (store : WarmupStore) : WarmupStore :=
  let event := stampReceived now event
  let events := (event :: store.events).take MAX_EVENTS
  let key := (today, event.profileId)
  let stats := (store.stats.get key).getD emptyProfileStats
  { events := events, stats := store.stats.set key (warmupStep event stats) }

/-- The `switch (event.action)` of `addPostEvent`: the action→delta table of
the post stream, with the scheduled counter decremented — floored at zero by
the `if (stats.scheduled > 0)` guard — on each terminal event. -/
def applyPostAction (action : String) (s : PostStats) : PostStats :=
  if action = "post_scheduled" then { s with scheduled := s.scheduled + 1 }
  else if action = "post_published" then
    { s with posted := s.posted + 1,
             scheduled := if s.scheduled > 0 then s.scheduled - 1 else s.scheduled }
  else if action = "post_failed" then
    { s with failed := s.failed + 1,
             scheduled := if s.scheduled > 0 then s.scheduled - 1 else s.scheduled }
  else s

/-- The record update performed by `addPostEvent` on the record read for the
event's key. -/
def postStep (e : PostEvent) (s : PostStats) : PostStats :=
  applyPostAction e.action
    { s with
      lastActivity := some e.timestamp,
      handle := if truthy e.handle then e.handle else s.handle }

/-- Function `addPostEvent` from `src/lib/db.ts`. -/
def addPostEvent (now : Int) (today : String) (event : PostEvent)
    (store : PostStore) : PostStore :=
  let event := stampPostReceived now event
  let events := (event :: store.events).take MAX_POST_EVENTS
  let key := (today, event.personaId)
  let stats := (store.stats.get key).getD emptyPostStats
  { events := events, stats := store.stats.set key (postStep event stats) }

/-- Function `getRecentEvents` from `src/lib/db.ts`: `lrange 0 (limit-1)`. -/
def getRecentEvents (limit : Nat) (store : WarmupStore) : List ActivityEvent :=
  store.events.take limit

/-- Function `getRecentPostEvents` from `src/lib/db.ts`. -/
def getRecentPostEvents (limit : Nat) (store : PostStore) : List PostEvent :=
  store.events.take limit

/-- Function `getStatsForDate` from `src/lib/db.ts`: enumerate the keys matching
`warmup:stats:{date}:*` and read each record; the result is the
profileId→record mapping in the store's enumeration order. -/
def getStatsForDate {α : Type} (m : StatsMap α) (date : String) :
    List (String × α) :=
  (m.filter (fun p => p.1.1 = date)).map (fun p => (p.1.2, p.2))

/-- A response of an ingestion route: the success acknowledgement or a
400-class rejection carrying the error message. -/
inductive LogResponse where
  | success : LogResponse
  | badRequest : String → LogResponse
deriving Repr, DecidableEq

/-- Handler `POST` of `src/app/api/log/route.ts`: reject when `profileId` or `action`
is falsy (missing or empty), otherwise `addEvent`.  Returns the response
together with the store after the request. -/
def warmupLogPOST (now : Int) (today : String) (event : ActivityEvent)
    (store : WarmupStore) : LogResponse × WarmupStore :=
  if event.profileId = "" ∨ event.action = "" then
    (.badRequest "Missing profileId or action", store)
  else
    (.success, addEvent now today event store)

/-- Constant `validActions` from `src/app/api/posts/log/route.ts`. -/
def validPostActions : List String :=
  ["post_scheduled", "post_published", "post_failed"]

/-- Handler `POST` of `src/app/api/posts/log/route.ts`: reject when `personaId` or
`action` is falsy, reject when `action` is not one of the three recognized
post actions, otherwise `addPostEvent`. -/
def postLogPOST (now : Int) (today : String) (event : PostEvent)
    (store : PostStore) : LogResponse × PostStore :=
  if event.personaId = "" ∨ event.action = "" then
    (.badRequest "Missing personaId or action", store)
  else if ¬ validPostActions.contains event.action then
    (.badRequest "Invalid action type", store)
  else
    (.success, addPostEvent now today event store)

/-- The warmup clear route: delete every `warmup:stats:{today}:*` key and the
`warmup:events` list; report how many stats keys were deleted. -/
def clearWarmup (today : String) (store : WarmupStore) : Nat × WarmupStore :=
  let statsKeys := store.stats.filter (fun p => p.1.1 = today)
  (statsKeys.length,
   { events := [],
     stats := store.stats.filter (fun p => ¬ p.1.1 = today) })

/-- The posts clear route: delete every `posts:stats:{today}:*` key and the
`posts:events` list; report how many stats keys were deleted. -/
def clearPosts (today : String) (store : PostStore) : Nat × PostStore :=
  let statsKeys := store.stats.filter (fun p => p.1.1 = today)
  (statsKeys.length,
   { events := [],
     stats := store.stats.filter (fun p => ¬ p.1.1 = today) })

/-- Processing a sequence of warmup events one after the other, with no
interleaving. -/
def runWarmupEvents (now : Int) (today : String) (es : List ActivityEvent)
    (store : WarmupStore) : WarmupStore :=
  es.foldl (fun st e => addEvent now today e st) store

/-- Processing a sequence of post events one after the other. -/
def runPostEvents (now : Int) (today : String) (es : List PostEvent)
    (store : PostStore) : PostStore :=
  es.foldl (fun st e => addPostEvent now today e st) store

/-- Type `PersonaPostStats` from the posts query route: one row of the `personas`
array in the response. -/
structure PersonaPostStats where
  personaId : String
  handle : String
  displayName : String
  emoji : String
  scheduled : Int
  posted : Int
  failed : Int
  lastActivity : Option Int
deriving Repr, DecidableEq

/-- The `totals` object of the posts query response. -/
structure PostTotals where
  scheduled : Int
  posted : Int
  failed : Int
deriving Repr, DecidableEq

/-- Type `PostsData` from the posts query route. -/
structure PostsData where
  date : String
  totals : PostTotals
  personas : List PersonaPostStats
  recentEvents : List PostEvent
deriving Repr, DecidableEq

/-- Table `PERSONA_META` from the posts query route: the static
personaId → (handle, displayName, emoji) display table. -/
def PERSONA_META (id : String) : Option (String × String × String) :=
  if id = "green" then some ("@PassikiAI", "Passiki", "🟢")
  else if id = "orange" then some ("@Builtforyou28", "Built For You", "🟠")
  else if id = "purple" then some ("@quit9to5life", "Quit 9-5 Life", "🟣")
  else if id = "blue" then some ("@automateprofit", "Automate Profit", "🔵")
  else if id = "red" then some ("@sidehustlecashh", "Side Hustle Cash", "🔴")
  else if id = "yellow" then some ("@wifilifestyle", "Laptop Lifestyle", "🟡")
  else if id = "cyan" then some ("@ecomtactics_", "Ecom Tactics", "🩵")
  else if id = "pink" then some ("@startingfrom0_", "Starting From Zero", "💗")
  else if id = "black" then some ("@aitoolstack_", "AI Tool Stack", "⬛")
  else if id = "white" then some ("@_wealthsystems_", "Wealth Systems", "⬜")
  else none

/-- The body of the posts query route's loop: build one persona row.
`meta = PERSONA_META[personaId] || { handle: stats.handle || '@'+id, ... }`,
then `handle: stats.handle || meta.handle`. -/
def mkPersona (personaId : String) (stats : PostStats) : PersonaPostStats :=
  let meta := (PERSONA_META personaId).getD
    ((if truthy stats.handle then stats.handle.getD "" else "@" ++ personaId),
     personaId, "•")
  { personaId := personaId,
    handle := if truthy stats.handle then stats.handle.getD "" else meta.1,
    displayName := meta.2.1,
    emoji := meta.2.2,
    scheduled := stats.scheduled,
    posted := stats.posted,
    failed := stats.failed,
    lastActivity := stats.lastActivity }

/-- The total activity of a persona row: the sort key
`posted + scheduled + failed` of the posts query route. -/
def personaTotal (p : PersonaPostStats) : Int :=
  p.posted + p.scheduled + p.failed

/-- Sorting `personas.sort((a, b) => (b.posted+b.scheduled+b.failed) -
(a.posted+a.scheduled+a.failed))`: a stable sort by total activity
descending. -/
def sortByTotalDesc (l : List PersonaPostStats) : List PersonaPostStats :=
  l.insertionSort (fun a b => personaTotal b ≤ personaTotal a)

/-- The totals accumulation of the posts query route's loop. -/
def totalsFold (l : List (String × PostStats)) (t : PostTotals) : PostTotals :=
  l.foldl
    (fun t p =>
      { scheduled := t.scheduled + p.2.scheduled,
        posted := t.posted + p.2.posted,
        failed := t.failed + p.2.failed }) t

/-- Handler `GET` of the posts query route: read today's stats map and the 50 most
recent post events, accumulate the totals over the entries, build the persona
rows, and sort them by total activity descending. -/
def postsTodayGET (today : String) (store : PostStore) : PostsData :=
  let statsMap := getStatsForDate store.stats today
  let totals := totalsFold statsMap { scheduled := 0, posted := 0, failed := 0 }
  let personas := statsMap.map (fun p => mkPersona p.1 p.2)
  { date := today,
    totals := totals,
    personas := sortByTotalDesc personas,
    recentEvents := getRecentPostEvents 50 store }

/-- The warmup stats `GET` response: `{ date, profiles, recentEvents }` —
the stats mapping is passed through as read, and no totals are computed. -/
structure WarmupTodayData where
  date : String
  profiles : List (String × ProfileStats)
  recentEvents : List ActivityEvent
deriving Repr, DecidableEq

/-- Handler `GET` of the warmup stats route: `getTodayStats()` and
`getRecentEvents(50)`, composed without further processing. -/
def warmupTodayGET (today : String) (store : WarmupStore) : WarmupTodayData :=
  { date := today,
    profiles := getStatsForDate store.stats today,
    recentEvents := getRecentEvents 50 store }

/-- A JSON value, as produced by `NextResponse.json` serializing the response
objects. -/
inductive Json where
  | null : Json
  | str : String → Json
  | num : Int → Json
  | arr : List Json → Json
  | obj : List (String × Json) → Json

/-- Field lookup in a JSON object. -/
def Json.lookup (j : Json) (k : String) : Option Json :=
  match j with
  | .obj fields => (fields.find? (fun p => p.1 = k)).map (·.2)
  | _ => none

/-- An optional string field: `JSON.stringify` omits `undefined` fields. -/
def optStrField (name : String) : Option String → List (String × Json)
  | none => []
  | some s => [(name, .str s)]

/-- An optional numeric field. -/
def optIntField (name : String) : Option Int → List (String × Json)
  | none => []
  | some n => [(name, .num n)]

/-- A nullable numeric field (`number | null` serializes `null` as JSON
null). -/
def nullableIntField (v : Option Int) : Json :=
  match v with
  | none => .null
  | some n => .num n

/-- Serialization of an `ActivityEvent`. -/
def ActivityEvent.toJson (e : ActivityEvent) : Json :=
  .obj ([("timestamp", .num e.timestamp), ("profileId", .str e.profileId)]
    ++ optStrField "username" e.username
    ++ [("action", .str e.action)]
    ++ optIntField "receivedAt" e.receivedAt)

/-- Serialization of a `ProfileStats` record. -/
def ProfileStats.toJson (s : ProfileStats) : Json :=
  .obj ([("likes", .num s.likes), ("bookmarks", .num s.bookmarks),
         ("searches", .num s.searches), ("explores", .num s.explores),
         ("videos", .num s.videos), ("sessions", .num s.sessions),
         ("lastActivity", nullableIntField s.lastActivity)]
    ++ optStrField "username" s.username)

/-- Serialization of a `PostEvent`. -/
def PostEvent.toJson (e : PostEvent) : Json :=
  .obj ([("timestamp", .num e.timestamp), ("personaId", .str e.personaId)]
    ++ optStrField "handle" e.handle
    ++ [("action", .str e.action)]
    ++ optIntField "receivedAt" e.receivedAt)

/-- Serialization of a `PersonaPostStats` row. -/
def PersonaPostStats.toJson (p : PersonaPostStats) : Json :=
  .obj [("personaId", .str p.personaId), ("handle", .str p.handle),
        ("displayName", .str p.displayName), ("emoji", .str p.emoji),
        ("scheduled", .num p.scheduled), ("posted", .num p.posted),
        ("failed", .num p.failed),
        ("lastActivity", nullableIntField p.lastActivity)]

/-- The JSON body returned by the warmup stats `GET`:
`NextResponse.json({ date: today, profiles: stats, recentEvents: events })`. -/
def warmupTodayJson (today : String) (store : WarmupStore) : Json :=
  let d := warmupTodayGET today store
  .obj [("date", .str d.date),
        ("profiles", .obj (d.profiles.map (fun p => (p.1, p.2.toJson)))),
        ("recentEvents", .arr (d.recentEvents.map ActivityEvent.toJson))]

/-- The JSON body returned by the posts query `GET`. -/
def postsTodayJson (today : String) (store : PostStore) : Json :=
  let d := postsTodayGET today store
  .obj [("date", .str d.date),
        ("totals", .obj [("scheduled", .num d.totals.scheduled),
                         ("posted", .num d.totals.posted),
                         ("failed", .num d.totals.failed)]),
        ("personas", .arr (d.personas.map PersonaPostStats.toJson)),
        ("recentEvents", .arr (d.recentEvents.map PostEvent.toJson))]

/-- The state of a stream's share of the backend before any warmup event has
arrived: empty log, no counter records. -/
def emptyWarmupStore : WarmupStore := { events := [], stats := [] }

/-- The post-stream analogue of `emptyWarmupStore`. -/
def emptyPostStore : PostStore := { events := [], stats := [] }

/-- A concrete warmup event for use in closed instantiations. -/
def mkWarmupEvent (ts : Int) (pid : String) (a : String) : ActivityEvent :=
  { timestamp := ts, profileId := pid, username := none, action := a,
    receivedAt := none }

/-- A concrete post event for use in closed instantiations. -/
def mkPostEvent (ts : Int) (pid : String) (a : String) : PostEvent :=
  { timestamp := ts, personaId := pid, handle := none, action := a,
    receivedAt := none }

/-- The spec's scenario sequence: three `like` events then one `bookmark`,
all for the profile `green`. -/
def c1Events : List ActivityEvent :=
  [mkWarmupEvent 1 "green" "like", mkWarmupEvent 2 "green" "like",
   mkWarmupEvent 3 "green" "like", mkWarmupEvent 4 "green" "bookmark"]

/-- A concrete post-event sequence exercising the floor-at-zero rule. -/
def c2Events : List PostEvent :=
  [mkPostEvent 1 "blue" "post_published", mkPostEvent 2 "blue" "post_scheduled",
   mkPostEvent 3 "blue" "post_scheduled", mkPostEvent 4 "blue" "post_failed",
   mkPostEvent 5 "blue" "post_published"]

/-- The total activity of a warmup counter record: the sum of all six
counters. -/
def warmupRecordTotal (r : ProfileStats) : Int :=
  r.likes + r.bookmarks + r.searches + r.explores + r.videos + r.sessions

/-- A concrete event order whose resulting store enumeration is ascending by
total activity: two likes for `b` arrive first, then one like for `a`, so the
most recently written record (`a`, the smaller total) enumerates first. -/
def c5Events : List ActivityEvent :=
  [mkWarmupEvent 1 "b" "like", mkWarmupEvent 2 "b" "like",
   mkWarmupEvent 3 "a" "like"]

/-- The store reached from empty by `c5Events`. -/
def c5Store : WarmupStore :=
  runWarmupEvents 0 "2026-01-01" c5Events emptyWarmupStore

/-- The record update repeated over a sequence of events (the aggregation the
counter record accumulates when the events are processed in order). -/
def warmupFold (es : List ActivityEvent) (r : ProfileStats) : ProfileStats :=
  es.foldl (fun r e => warmupStep e r) r

/-- The number of events in a sequence carrying a given action. -/
def countAction (a : String) (es : List ActivityEvent) : Int :=
  ((es.filter (fun e => e.action = a)).length : Int)

/-! ## Basic store lemmas -/

theorem StatsMap.get_set_self {α : Type} (m : StatsMap α) (k : String × String)
    (v : α) : (m.set k v).get k = some v := by
  simp [StatsMap.get, StatsMap.set, List.find?]

theorem StatsMap.get_set_ne {α : Type} (m : StatsMap α) (k k' : String × String)
    (v : α) (h : k' ≠ k) : (m.set k v).get k' = m.get k' := by
  unfold StatsMap.get StatsMap.set
  rw [List.find?_cons_of_neg _ (by simp; exact fun h' => h h'.symm),
    List.find?_filter]
  congr 2
  funext a
  simp only [decide_eq_true_eq, decide_eq_decide]
  constructor
  · rintro ⟨-, h2⟩; exact h2
  · intro h2; exact ⟨fun hc => h (by rw [← h2, ← hc]), h2⟩

/-- Stamping commutes: `addEvent` leaves the warmup step's inputs of the stamped event unchanged:
stamping only touches `receivedAt`, which the record update never reads. -/
theorem warmupStep_stamp (now : Int) (e : ActivityEvent) :
    warmupStep (stampReceived now e) = warmupStep e := rfl

/-- The record stored by `addEvent` for the event's own key. -/
theorem get_addEvent_self (now : Int) (today : String) (e : ActivityEvent)
    (s : WarmupStore) :
    (addEvent now today e s).stats.get (today, e.profileId) =
      some (warmupStep e
        ((s.stats.get (today, e.profileId)).getD emptyProfileStats)) := by
  unfold addEvent
  exact StatsMap.get_set_self ..

/-- Isolation: `addEvent` does not touch the record of any other key. -/
theorem get_addEvent_ne (now : Int) (today : String) (e : ActivityEvent)
    (s : WarmupStore) (k : String × String) (h : k ≠ (today, e.profileId)) :
    (addEvent now today e s).stats.get k = s.stats.get k := by
  unfold addEvent
  exact StatsMap.get_set_ne _ _ _ _ h

/-- The event log written by `addEvent`. -/
theorem addEvent_events (now : Int) (today : String) (e : ActivityEvent)
    (s : WarmupStore) :
    (addEvent now today e s).events =
      (stampReceived now e :: s.events).take MAX_EVENTS := rfl

/-- The post-stream analogue of `warmupStep_stamp`. -/
theorem postStep_stamp (now : Int) (e : PostEvent) :
    postStep (stampPostReceived now e) = postStep e := rfl

/-- The record stored by `addPostEvent` for the event's own key. -/
theorem get_addPostEvent_self (now : Int) (today : String) (e : PostEvent)
    (s : PostStore) :
    (addPostEvent now today e s).stats.get (today, e.personaId) =
      some (postStep e
        ((s.stats.get (today, e.personaId)).getD emptyPostStats)) := by
  unfold addPostEvent
  exact StatsMap.get_set_self ..

/-- The event log written by `addPostEvent`. -/
theorem addPostEvent_events (now : Int) (today : String) (e : PostEvent)
    (s : PostStore) :
    (addPostEvent now today e s).events =
      (stampPostReceived now e :: s.events).take MAX_POST_EVENTS := rfl

/-! ## Warmup counter arithmetic -/

theorem applyWarmupAction_likes (a : String) (r : ProfileStats) :
    (applyWarmupAction a r).likes = r.likes + (if a = "like" then 1 else 0) := by
  unfold applyWarmupAction
  split_ifs <;> simp_all

theorem applyWarmupAction_bookmarks (a : String) (r : ProfileStats) :
    (applyWarmupAction a r).bookmarks =
      r.bookmarks + (if a = "bookmark" then 1 else 0) := by
  unfold applyWarmupAction
  split_ifs <;> simp_all

theorem applyWarmupAction_searches (a : String) (r : ProfileStats) :
    (applyWarmupAction a r).searches =
      r.searches + (if a = "search" then 1 else 0) := by
  unfold applyWarmupAction
  split_ifs <;> simp_all

theorem applyWarmupAction_explores (a : String) (r : ProfileStats) :
    (applyWarmupAction a r).explores =
      r.explores + (if a = "explore" then 1 else 0) := by
  unfold applyWarmupAction
  split_ifs <;> simp_all

theorem applyWarmupAction_videos (a : String) (r : ProfileStats) :
    (applyWarmupAction a r).videos =
      r.videos + (if a = "video_watch" then 1 else 0) := by
  unfold applyWarmupAction
  split_ifs <;> simp_all

theorem applyWarmupAction_sessions (a : String) (r : ProfileStats) :
    (applyWarmupAction a r).sessions =
      r.sessions + (if a = "session_start" then 1 else 0) := by
  unfold applyWarmupAction
  split_ifs <;> simp_all

theorem applyWarmupAction_lastActivity (a : String) (r : ProfileStats) :
    (applyWarmupAction a r).lastActivity = r.lastActivity := by
  unfold applyWarmupAction
  split_ifs <;> rfl

theorem applyWarmupAction_username (a : String) (r : ProfileStats) :
    (applyWarmupAction a r).username = r.username := by
  unfold applyWarmupAction
  split_ifs <;> rfl

/-- Actions outside the six counting cases of the switch fall through and
change nothing. -/
theorem applyWarmupAction_other (a : String) (r : ProfileStats)
    (h : a ∉ ["like", "bookmark", "search", "explore", "video_watch",
      "session_start"]) :
    applyWarmupAction a r = r := by
  unfold applyWarmupAction
  split_ifs <;> simp_all

theorem warmupStep_likes (e : ActivityEvent) (r : ProfileStats) :
    (warmupStep e r).likes = r.likes + (if e.action = "like" then 1 else 0) := by
  simp [warmupStep, applyWarmupAction_likes]

theorem warmupStep_bookmarks (e : ActivityEvent) (r : ProfileStats) :
    (warmupStep e r).bookmarks =
      r.bookmarks + (if e.action = "bookmark" then 1 else 0) := by
  simp [warmupStep, applyWarmupAction_bookmarks]

theorem warmupStep_searches (e : ActivityEvent) (r : ProfileStats) :
    (warmupStep e r).searches =
      r.searches + (if e.action = "search" then 1 else 0) := by
  simp [warmupStep, applyWarmupAction_searches]

theorem warmupStep_explores (e : ActivityEvent) (r : ProfileStats) :
    (warmupStep e r).explores =
      r.explores + (if e.action = "explore" then 1 else 0) := by
  simp [warmupStep, applyWarmupAction_explores]

theorem warmupStep_videos (e : ActivityEvent) (r : ProfileStats) :
    (warmupStep e r).videos =
      r.videos + (if e.action = "video_watch" then 1 else 0) := by
  simp [warmupStep, applyWarmupAction_videos]

theorem warmupStep_sessions (e : ActivityEvent) (r : ProfileStats) :
    (warmupStep e r).sessions =
      r.sessions + (if e.action = "session_start" then 1 else 0) := by
  simp [warmupStep, applyWarmupAction_sessions]

theorem warmupStep_lastActivity (e : ActivityEvent) (r : ProfileStats) :
    (warmupStep e r).lastActivity = some e.timestamp := by
  simp [warmupStep, applyWarmupAction_lastActivity]

theorem warmupFold_likes (es : List ActivityEvent) (r : ProfileStats) :
    (warmupFold es r).likes = r.likes + countAction "like" es := by
  induction es generalizing r with
  | nil => simp [warmupFold, countAction]
  | cons e es ih =>
    simp only [warmupFold, List.foldl_cons] at ih ⊢
    rw [ih, warmupStep_likes]
    unfold countAction
    rw [List.filter_cons]
    by_cases h : e.action = "like" <;> simp [h] <;> ring

theorem warmupFold_bookmarks (es : List ActivityEvent) (r : ProfileStats) :
    (warmupFold es r).bookmarks = r.bookmarks + countAction "bookmark" es := by
  induction es generalizing r with
  | nil => simp [warmupFold, countAction]
  | cons e es ih =>
    simp only [warmupFold, List.foldl_cons] at ih ⊢
    rw [ih, warmupStep_bookmarks]
    unfold countAction
    rw [List.filter_cons]
    by_cases h : e.action = "bookmark" <;> simp [h] <;> ring

theorem warmupFold_searches (es : List ActivityEvent) (r : ProfileStats) :
    (warmupFold es r).searches = r.searches + countAction "search" es := by
  induction es generalizing r with
  | nil => simp [warmupFold, countAction]
  | cons e es ih =>
    simp only [warmupFold, List.foldl_cons] at ih ⊢
    rw [ih, warmupStep_searches]
    unfold countAction
    rw [List.filter_cons]
    by_cases h : e.action = "search" <;> simp [h] <;> ring

theorem warmupFold_explores (es : List ActivityEvent) (r : ProfileStats) :
    (warmupFold es r).explores = r.explores + countAction "explore" es := by
  induction es generalizing r with
  | nil => simp [warmupFold, countAction]
  | cons e es ih =>
    simp only [warmupFold, List.foldl_cons] at ih ⊢
    rw [ih, warmupStep_explores]
    unfold countAction
    rw [List.filter_cons]
    by_cases h : e.action = "explore" <;> simp [h] <;> ring

theorem warmupFold_videos (es : List ActivityEvent) (r : ProfileStats) :
    (warmupFold es r).videos = r.videos + countAction "video_watch" es := by
  induction es generalizing r with
  | nil => simp [warmupFold, countAction]
  | cons e es ih =>
    simp only [warmupFold, List.foldl_cons] at ih ⊢
    rw [ih, warmupStep_videos]
    unfold countAction
    rw [List.filter_cons]
    by_cases h : e.action = "video_watch" <;> simp [h] <;> ring

theorem warmupFold_sessions (es : List ActivityEvent) (r : ProfileStats) :
    (warmupFold es r).sessions = r.sessions + countAction "session_start" es := by
  induction es generalizing r with
  | nil => simp [warmupFold, countAction]
  | cons e es ih =>
    simp only [warmupFold, List.foldl_cons] at ih ⊢
    rw [ih, warmupStep_sessions]
    unfold countAction
    rw [List.filter_cons]
    by_cases h : e.action = "session_start" <;> simp [h] <;> ring

theorem warmupFold_lastActivity (es : List ActivityEvent) (r : ProfileStats)
    (h : es ≠ []) :
    (warmupFold es r).lastActivity = es.getLast?.map (fun e => e.timestamp) := by
  induction es generalizing r with
  | nil => simp at h
  | cons e es ih =>
    cases es with
    | nil =>
      simp only [warmupFold, List.foldl_cons, List.foldl_nil, List.getLast?_singleton,
        Option.map_some]
      exact warmupStep_lastActivity e r
    | cons e2 es2 =>
      rw [List.getLast?_cons_cons]
      simp only [warmupFold, List.foldl_cons] at ih ⊢
      exact ih _ (by simp)

/-- Running a sequence of events that all belong to one profile accumulates
`warmupStep` on that profile's record. -/
theorem get_runWarmup (now : Int) (today : String) (p : String)
    (es : List ActivityEvent) (s : WarmupStore) (r0 : ProfileStats)
    (hall : ∀ e ∈ es, e.profileId = p)
    (h0 : s.stats.get (today, p) = some r0) :
    (runWarmupEvents now today es s).stats.get (today, p) =
      some (warmupFold es r0) := by
  induction es generalizing s r0 with
  | nil => simpa [runWarmupEvents, warmupFold] using h0
  | cons e es ih =>
    have hp : e.profileId = p := hall e (by simp)
    have hstep : (addEvent now today e s).stats.get (today, p) =
        some (warmupStep e r0) := by
      rw [← hp, get_addEvent_self, hp, h0]
      rfl
    simp only [runWarmupEvents, List.foldl_cons] at ih ⊢
    simp only [warmupFold, List.foldl_cons] at ih ⊢
    exact ih (addEvent now today e s) (warmupStep e r0)
      (fun e' he' => hall e' (List.mem_cons_of_mem e he')) hstep

/-- The first event for a profile synthesizes the zeroed record; thereafter
the sequence accumulates `warmupStep` from zero. -/
theorem get_runWarmup_of_none (now : Int) (today : String) (p : String)
    (es : List ActivityEvent) (s : WarmupStore)
    (hall : ∀ e ∈ es, e.profileId = p)
    (h0 : s.stats.get (today, p) = none) (hne : es ≠ []) :
    (runWarmupEvents now today es s).stats.get (today, p) =
      some (warmupFold es emptyProfileStats) := by
  cases es with
  | nil => exact absurd rfl hne
  | cons e es =>
    have hp : e.profileId = p := hall e (by simp)
    have hstep : (addEvent now today e s).stats.get (today, p) =
        some (warmupStep e emptyProfileStats) := by
      rw [← hp, get_addEvent_self, hp, h0]
      rfl
    simp only [runWarmupEvents, List.foldl_cons, warmupFold] at *
    exact get_runWarmup now today p es (addEvent now today e s)
      (warmupStep e emptyProfileStats)
      (fun e' he' => hall e' (List.mem_cons_of_mem e he')) hstep

/-- C1: a sequence of warmup events for one `(stream, date, entityId)`,
processed sequentially, yields the zeroed record plus the per-action deltas
applied in order: each of the six counters equals the number of events
carrying its action, `lastActivity` is the last event's timestamp, and the
non-counting actions (`session_end`, `error`, `scroll`, `profile_visit`)
change no counter field while still setting `lastActivity`. -/
theorem claim_C1_warmup_sequence_aggregation (now : Int) (today : String)
    (p : String) (es : List ActivityEvent) (s : WarmupStore)
    (hall : ∀ e ∈ es, e.profileId = p)
    (h0 : s.stats.get (today, p) = none) (hne : es ≠ []) :
    (∃ rec, (runWarmupEvents now today es s).stats.get (today, p) = some rec ∧
      rec.likes = countAction "like" es ∧
      rec.bookmarks = countAction "bookmark" es ∧
      rec.searches = countAction "search" es ∧
      rec.explores = countAction "explore" es ∧
      rec.videos = countAction "video_watch" es ∧
      rec.sessions = countAction "session_start" es ∧
      rec.lastActivity = es.getLast?.map (fun e => e.timestamp)) ∧
    (∀ (e : ActivityEvent) (r : ProfileStats),
      e.action ∈ ["session_end", "error", "scroll", "profile_visit"] →
      warmupStep e r = { r with
        lastActivity := some e.timestamp,
        username := if truthy e.username then e.username else r.username }) := by
  constructor
  · refine ⟨warmupFold es emptyProfileStats,
      get_runWarmup_of_none now today p es s hall h0 hne, ?_, ?_, ?_, ?_, ?_, ?_, ?_⟩
    · rw [warmupFold_likes]
      simp [emptyProfileStats]
    · rw [warmupFold_bookmarks]
      simp [emptyProfileStats]
    · rw [warmupFold_searches]
      simp [emptyProfileStats]
    · rw [warmupFold_explores]
      simp [emptyProfileStats]
    · rw [warmupFold_videos]
      simp [emptyProfileStats]
    · rw [warmupFold_sessions]
      simp [emptyProfileStats]
    · exact warmupFold_lastActivity es emptyProfileStats hne
  · intro e r h
    have hnot : e.action ∉ ["like", "bookmark", "search", "explore",
        "video_watch", "session_start"] := by
      simp only [List.mem_cons, List.not_mem_nil, or_false] at h ⊢
      rcases h with h | h | h | h <;> rw [h] <;> decide
    unfold warmupStep
    rw [applyWarmupAction_other _ _ hnot]

/-- Witness for C1: the spec's scenario — three `like` events then one
`bookmark` for profile `green` on an empty store — instantiates the theorem;
in particular the resulting record has `likes = 3` and `bookmarks = 1`. -/
theorem claim_C1_witness :
    (∀ e ∈ c1Events, e.profileId = "green") ∧
    (emptyWarmupStore.stats.get ("2026-01-01", "green") = none) ∧
    c1Events ≠ [] ∧
    ((∃ rec, (runWarmupEvents 99 "2026-01-01" c1Events
        emptyWarmupStore).stats.get ("2026-01-01", "green") = some rec ∧
      rec.likes = countAction "like" c1Events ∧
      rec.bookmarks = countAction "bookmark" c1Events ∧
      rec.searches = countAction "search" c1Events ∧
      rec.explores = countAction "explore" c1Events ∧
      rec.videos = countAction "video_watch" c1Events ∧
      rec.sessions = countAction "session_start" c1Events ∧
      rec.lastActivity = c1Events.getLast?.map (fun e => e.timestamp)) ∧
    (∀ (e : ActivityEvent) (r : ProfileStats),
      e.action ∈ ["session_end", "error", "scroll", "profile_visit"] →
      warmupStep e r = { r with
        lastActivity := some e.timestamp,
        username := if truthy e.username then e.username else r.username })) :=
  ⟨by decide, rfl, by decide,
    claim_C1_warmup_sequence_aggregation 99 "2026-01-01" "green" c1Events
      emptyWarmupStore (by decide) rfl (by decide)⟩

/-! ## Post-stream counter arithmetic -/

theorem StatsMap.mem_set {α : Type} (m : StatsMap α) (k : String × String)
    (v : α) (q : (String × String) × α) (hq : q ∈ m.set k v) :
    q = (k, v) ∨ q ∈ m := by
  unfold StatsMap.set at hq
  rcases List.mem_cons.mp hq with h | h
  · exact Or.inl h
  · exact Or.inr (List.mem_of_mem_filter h)

theorem StatsMap.get_eq_some_mem {α : Type} (m : StatsMap α)
    (k : String × String) (r : α) (h : m.get k = some r) :
    ∃ q ∈ m, q.2 = r := by
  unfold StatsMap.get at h
  cases hf : m.find? (fun p => p.1 = k) with
  | none => simp [hf] at h
  | some q =>
    refine ⟨q, List.mem_of_find?_eq_some hf, ?_⟩
    simp [hf] at h
    exact h

/-- The stats written by `addPostEvent`, spelled through `StatsMap.set`. -/
theorem addPostEvent_stats (now : Int) (today : String) (e : PostEvent)
    (s : PostStore) :
    (addPostEvent now today e s).stats =
      s.stats.set (today, e.personaId)
        (postStep e ((s.stats.get (today, e.personaId)).getD emptyPostStats)) :=
  rfl

theorem applyPostAction_scheduled_case (r : PostStats) :
    (applyPostAction "post_scheduled" r).scheduled = r.scheduled + 1 ∧
    (applyPostAction "post_scheduled" r).posted = r.posted ∧
    (applyPostAction "post_scheduled" r).failed = r.failed := by
  unfold applyPostAction
  split_ifs <;> simp_all

theorem applyPostAction_published_case (r : PostStats) (h : 0 ≤ r.scheduled) :
    (applyPostAction "post_published" r).posted = r.posted + 1 ∧
    (applyPostAction "post_published" r).scheduled = max (r.scheduled - 1) 0 ∧
    (applyPostAction "post_published" r).failed = r.failed := by
  unfold applyPostAction
  split_ifs with h1 h2 h3 <;> simp_all <;> omega

theorem applyPostAction_failed_case (r : PostStats) (h : 0 ≤ r.scheduled) :
    (applyPostAction "post_failed" r).failed = r.failed + 1 ∧
    (applyPostAction "post_failed" r).scheduled = max (r.scheduled - 1) 0 ∧
    (applyPostAction "post_failed" r).posted = r.posted := by
  unfold applyPostAction
  split_ifs with h1 h2 h3 <;> simp_all <;> omega

theorem applyPostAction_scheduled_nonneg (a : String) (r : PostStats)
    (h : 0 ≤ r.scheduled) : 0 ≤ (applyPostAction a r).scheduled := by
  unfold applyPostAction
  split_ifs <;> simp_all <;> omega

theorem postStep_scheduled_nonneg (e : PostEvent) (r : PostStats)
    (h : 0 ≤ r.scheduled) : 0 ≤ (postStep e r).scheduled := by
  unfold postStep
  exact applyPostAction_scheduled_nonneg _ _ (by simpa using h)

/-- Preservation: `addPostEvent` keeps every stored scheduled counter non-negative. -/
theorem addPostEvent_nonneg (now : Int) (today : String) (e : PostEvent)
    (s : PostStore) (h : ∀ q ∈ s.stats, 0 ≤ q.2.scheduled) :
    ∀ q ∈ (addPostEvent now today e s).stats, 0 ≤ q.2.scheduled := by
  intro q hq
  rw [addPostEvent_stats] at hq
  rcases StatsMap.mem_set _ _ _ _ hq with rfl | hq'
  · apply postStep_scheduled_nonneg
    cases hget : s.stats.get (today, e.personaId) with
    | none => simp [hget, emptyPostStats]
    | some r =>
      obtain ⟨q', hq', h2⟩ := StatsMap.get_eq_some_mem _ _ _ hget
      simp only [hget, Option.getD_some]
      exact h2 ▸ h q' hq'
  · exact h q hq'

/-- Sequential processing keeps every stored scheduled counter
non-negative. -/
theorem runPost_nonneg (now : Int) (today : String) (es : List PostEvent)
    (s : PostStore) (h : ∀ q ∈ s.stats, 0 ≤ q.2.scheduled) :
    ∀ q ∈ (runPostEvents now today es s).stats, 0 ≤ q.2.scheduled := by
  induction es generalizing s with
  | nil => exact h
  | cons e es ih =>
    simp only [runPostEvents, List.foldl_cons] at ih ⊢
    exact ih (addPostEvent now today e s) (addPostEvent_nonneg now today e s h)

theorem postStep_scheduled_case (e : PostEvent) (r : PostStats)
    (ha : e.action = "post_scheduled") :
    (postStep e r).scheduled = r.scheduled + 1 ∧
    (postStep e r).posted = r.posted ∧
    (postStep e r).failed = r.failed := by
  unfold postStep
  rw [ha]
  have := applyPostAction_scheduled_case
    { r with
      lastActivity := some e.timestamp,
      handle := if truthy e.handle then e.handle else r.handle }
  simpa using this

theorem postStep_published_case (e : PostEvent) (r : PostStats)
    (ha : e.action = "post_published") (h : 0 ≤ r.scheduled) :
    (postStep e r).posted = r.posted + 1 ∧
    (postStep e r).scheduled = max (r.scheduled - 1) 0 ∧
    (postStep e r).failed = r.failed := by
  unfold postStep
  rw [ha]
  have := applyPostAction_published_case
    { r with
      lastActivity := some e.timestamp,
      handle := if truthy e.handle then e.handle else r.handle }
    (by simpa using h)
  simpa using this

theorem postStep_failed_case (e : PostEvent) (r : PostStats)
    (ha : e.action = "post_failed") (h : 0 ≤ r.scheduled) :
    (postStep e r).failed = r.failed + 1 ∧
    (postStep e r).scheduled = max (r.scheduled - 1) 0 ∧
    (postStep e r).posted = r.posted := by
  unfold postStep
  rw [ha]
  have := applyPostAction_failed_case
    { r with
      lastActivity := some e.timestamp,
      handle := if truthy e.handle then e.handle else r.handle }
    (by simpa using h)
  simpa using this

/-- C2: the post-stream action→delta table — `post_scheduled` increments
`scheduled`; `post_published` increments `posted` and decrements `scheduled`
floored at zero; `post_failed` increments `failed` and decrements `scheduled`
floored at zero; a `post_published` with no prior `post_scheduled` yields
`{scheduled := 0, posted := 1, failed := 0}`; and the scheduled counter is
never negative after any sequence of events. -/
theorem claim_C2_post_stream_deltas (now : Int) (today : String) :
    (∀ (e : PostEvent) (s : PostStore) (old : PostStats),
      old = (s.stats.get (today, e.personaId)).getD emptyPostStats →
      0 ≤ old.scheduled →
      (addPostEvent now today e s).stats.get (today, e.personaId) =
        some (postStep e old) ∧
      (e.action = "post_scheduled" →
        (postStep e old).scheduled = old.scheduled + 1 ∧
        (postStep e old).posted = old.posted ∧
        (postStep e old).failed = old.failed) ∧
      (e.action = "post_published" →
        (postStep e old).posted = old.posted + 1 ∧
        (postStep e old).scheduled = max (old.scheduled - 1) 0 ∧
        (postStep e old).failed = old.failed) ∧
      (e.action = "post_failed" →
        (postStep e old).failed = old.failed + 1 ∧
        (postStep e old).scheduled = max (old.scheduled - 1) 0 ∧
        (postStep e old).posted = old.posted)) ∧
    (∀ (ts : Int) (pid : String),
      (addPostEvent now today (mkPostEvent ts pid "post_published")
          emptyPostStore).stats.get (today, pid) =
        some { scheduled := 0, posted := 1, failed := 0,
               lastActivity := some ts, handle := none }) ∧
    (∀ (es : List PostEvent) (s : PostStore),
      (∀ q ∈ s.stats, 0 ≤ q.2.scheduled) →
      ∀ q ∈ (runPostEvents now today es s).stats, 0 ≤ q.2.scheduled) := by
  refine ⟨?_, ?_, fun es s h => runPost_nonneg now today es s h⟩
  · intro e s old hold hnn
    exact ⟨by rw [get_addPostEvent_self, ← hold],
      fun ha => postStep_scheduled_case e old ha,
      fun ha => postStep_published_case e old ha hnn,
      fun ha => postStep_failed_case e old ha hnn⟩
  · intro ts pid
    have h := get_addPostEvent_self now today (mkPostEvent ts pid "post_published")
      emptyPostStore
    simp only [mkPostEvent] at h ⊢
    rw [h]
    rfl

/-- Witness for C2: the theorem instantiated at a `post_published` event for
the persona `blue` on an empty store, and the non-negativity invariant run
over a concrete sequence that exercises the floor at zero. -/
theorem claim_C2_witness :
    (emptyPostStats =
      (emptyPostStore.stats.get ("2026-01-01", "blue")).getD emptyPostStats) ∧
    (0 ≤ emptyPostStats.scheduled) ∧
    ((addPostEvent 9 "2026-01-01" (mkPostEvent 7 "blue" "post_published")
        emptyPostStore).stats.get ("2026-01-01", "blue") =
      some (postStep (mkPostEvent 7 "blue" "post_published") emptyPostStats) ∧
     ((mkPostEvent 7 "blue" "post_published").action = "post_scheduled" →
       (postStep (mkPostEvent 7 "blue" "post_published")
           emptyPostStats).scheduled = emptyPostStats.scheduled + 1 ∧
       (postStep (mkPostEvent 7 "blue" "post_published")
           emptyPostStats).posted = emptyPostStats.posted ∧
       (postStep (mkPostEvent 7 "blue" "post_published")
           emptyPostStats).failed = emptyPostStats.failed) ∧
     ((mkPostEvent 7 "blue" "post_published").action = "post_published" →
       (postStep (mkPostEvent 7 "blue" "post_published")
           emptyPostStats).posted = emptyPostStats.posted + 1 ∧
       (postStep (mkPostEvent 7 "blue" "post_published")
           emptyPostStats).scheduled = max (emptyPostStats.scheduled - 1) 0 ∧
       (postStep (mkPostEvent 7 "blue" "post_published")
           emptyPostStats).failed = emptyPostStats.failed) ∧
     ((mkPostEvent 7 "blue" "post_published").action = "post_failed" →
       (postStep (mkPostEvent 7 "blue" "post_published")
           emptyPostStats).failed = emptyPostStats.failed + 1 ∧
       (postStep (mkPostEvent 7 "blue" "post_published")
           emptyPostStats).scheduled = max (emptyPostStats.scheduled - 1) 0 ∧
       (postStep (mkPostEvent 7 "blue" "post_published")
           emptyPostStats).posted = emptyPostStats.posted)) ∧
    (∀ q ∈ emptyPostStore.stats, 0 ≤ q.2.scheduled) ∧
    (∀ q ∈ (runPostEvents 9 "2026-01-01" c2Events emptyPostStore).stats,
      0 ≤ q.2.scheduled) :=
  ⟨rfl, by decide,
   (claim_C2_post_stream_deltas 9 "2026-01-01").1
     (mkPostEvent 7 "blue" "post_published") emptyPostStore emptyPostStats
     rfl (by decide),
   by decide,
   (claim_C2_post_stream_deltas 9 "2026-01-01").2.2 c2Events emptyPostStore
     (by decide)⟩

/-- A single append truncates the warmup log to the cap. -/
theorem addEvent_length_le (now : Int) (today : String) (e : ActivityEvent)
    (s : WarmupStore) : (addEvent now today e s).events.length ≤ MAX_EVENTS := by
  rw [addEvent_events]
  simpa using List.length_take_le MAX_EVENTS (stampReceived now e :: s.events)

/-- A single append truncates the post log to the cap. -/
theorem addPostEvent_length_le (now : Int) (today : String) (e : PostEvent)
    (s : PostStore) :
    (addPostEvent now today e s).events.length ≤ MAX_POST_EVENTS := by
  rw [addPostEvent_events]
  simpa using
    List.length_take_le MAX_POST_EVENTS (stampPostReceived now e :: s.events)

/-- C3: the event log of each stream never exceeds its configured cap — 500
entries for the warmup stream and 200 for the post stream — with every append
keeping the newest entries and dropping the oldest beyond the cap, and the
invariant preserved by any sequence of appends. -/
theorem claim_C3_log_caps (now : Int) (today : String) :
    (∀ (e : ActivityEvent) (s : WarmupStore),
      (addEvent now today e s).events =
        (stampReceived now e :: s.events).take 500 ∧
      (addEvent now today e s).events.length ≤ 500) ∧
    (∀ (e : PostEvent) (s : PostStore),
      (addPostEvent now today e s).events =
        (stampPostReceived now e :: s.events).take 200 ∧
      (addPostEvent now today e s).events.length ≤ 200) ∧
    (∀ (es : List ActivityEvent) (s : WarmupStore),
      s.events.length ≤ 500 →
      (runWarmupEvents now today es s).events.length ≤ 500) ∧
    (∀ (es : List PostEvent) (s : PostStore),
      s.events.length ≤ 200 →
      (runPostEvents now today es s).events.length ≤ 200) := by
  refine ⟨fun e s => ⟨addEvent_events now today e s, addEvent_length_le now today e s⟩,
    fun e s => ⟨addPostEvent_events now today e s, addPostEvent_length_le now today e s⟩,
    ?_, ?_⟩
  · intro es
    induction es with
    | nil => exact fun s h => h
    | cons e es ih =>
      intro s _
      simp only [runWarmupEvents, List.foldl_cons] at ih ⊢
      exact ih (addEvent now today e s) (addEvent_length_le now today e s)
  · intro es
    induction es with
    | nil => exact fun s h => h
    | cons e es ih =>
      intro s _
      simp only [runPostEvents, List.foldl_cons] at ih ⊢
      exact ih (addPostEvent now today e s) (addPostEvent_length_le now today e s)

/-- Witness for C3: the theorem applied to a one-event burst on each empty
store. -/
theorem claim_C3_witness :
    (emptyWarmupStore.events.length ≤ 500 ∧
      (runWarmupEvents 0 "2026-01-01" c1Events
        emptyWarmupStore).events.length ≤ 500) ∧
    (emptyPostStore.events.length ≤ 200 ∧
      (runPostEvents 0 "2026-01-01" c2Events
        emptyPostStore).events.length ≤ 200) :=
  ⟨⟨by decide, (claim_C3_log_caps 0 "2026-01-01").2.2.1 c1Events
      emptyWarmupStore (by decide)⟩,
   ⟨by decide, (claim_C3_log_caps 0 "2026-01-01").2.2.2 c2Events
      emptyPostStore (by decide)⟩⟩

/-- C4: a raw event with a missing or empty entityId or action — or, on the
post stream, an action outside the three recognized post actions — is
rejected with a 400-class response, and the store is returned unchanged: no
log entry is appended and no counter record is created or changed. -/
theorem claim_C4_validation_rejects (now : Int) (today : String) :
    (∀ (e : ActivityEvent) (s : WarmupStore),
      (e.profileId = "" ∨ e.action = "") →
      warmupLogPOST now today e s =
        (.badRequest "Missing profileId or action", s)) ∧
    (∀ (e : PostEvent) (s : PostStore),
      (e.personaId = "" ∨ e.action = "" ∨ e.action ∉ validPostActions) →
      ∃ msg, postLogPOST now today e s = (.badRequest msg, s)) := by
  constructor
  · intro e s h
    unfold warmupLogPOST
    rw [if_pos h]
  · intro e s h
    unfold postLogPOST
    by_cases h1 : e.personaId = "" ∨ e.action = ""
    · rw [if_pos h1]
      exact ⟨_, rfl⟩
    · rw [if_neg h1]
      have hmem : e.action ∉ validPostActions := by
        rcases h with h | h | h
        · exact absurd (Or.inl h) h1
        · exact absurd (Or.inr h) h1
        · exact h
      rw [if_pos (by simpa using hmem)]
      exact ⟨_, rfl⟩

/-- Witness for C4: a warmup event with an empty profileId and a post event
with the unrecognized action `foobar` are both rejected with the store
unchanged. -/
theorem claim_C4_witness :
    ((mkWarmupEvent 1 "" "like").profileId = "" ∨
      (mkWarmupEvent 1 "" "like").action = "") ∧
    warmupLogPOST 0 "2026-01-01" (mkWarmupEvent 1 "" "like")
        emptyWarmupStore =
      (.badRequest "Missing profileId or action", emptyWarmupStore) ∧
    ((mkPostEvent 1 "blue" "foobar").personaId = "" ∨
      (mkPostEvent 1 "blue" "foobar").action = "" ∨
      (mkPostEvent 1 "blue" "foobar").action ∉ validPostActions) ∧
    (∃ msg, postLogPOST 0 "2026-01-01" (mkPostEvent 1 "blue" "foobar")
        emptyPostStore = (.badRequest msg, emptyPostStore)) :=
  ⟨by decide,
   (claim_C4_validation_rejects 0 "2026-01-01").1 (mkWarmupEvent 1 "" "like")
     emptyWarmupStore (by decide),
   by decide,
   (claim_C4_validation_rejects 0 "2026-01-01").2 (mkPostEvent 1 "blue" "foobar")
     emptyPostStore (by decide)⟩

/-- C7: submitting the same valid event object twice is observationally two
distinct submissions — both calls succeed, the log gains two entries (the
duplicated event at the two newest positions), and the entity's counter
record receives the action's delta twice; nothing deduplicates, on either
stream. -/
theorem claim_C7_no_deduplication (now : Int) (today : String) :
    (∀ (e : ActivityEvent) (s : WarmupStore),
      e.profileId ≠ "" → e.action ≠ "" →
      warmupLogPOST now today e s = (.success, addEvent now today e s) ∧
      warmupLogPOST now today e (addEvent now today e s) =
        (.success, addEvent now today e (addEvent now today e s)) ∧
      (addEvent now today e (addEvent now today e s)).events.take 2 =
        [stampReceived now e, stampReceived now e] ∧
      (s.events.length ≤ 498 →
        (addEvent now today e (addEvent now today e s)).events.length =
          s.events.length + 2) ∧
      (addEvent now today e (addEvent now today e s)).stats.get
          (today, e.profileId) =
        some (warmupStep e (warmupStep e
          ((s.stats.get (today, e.profileId)).getD emptyProfileStats)))) ∧
    (∀ (e : PostEvent) (s : PostStore),
      e.personaId ≠ "" → e.action ∈ validPostActions →
      postLogPOST now today e s = (.success, addPostEvent now today e s) ∧
      postLogPOST now today e (addPostEvent now today e s) =
        (.success, addPostEvent now today e (addPostEvent now today e s)) ∧
      (addPostEvent now today e (addPostEvent now today e s)).events.take 2 =
        [stampPostReceived now e, stampPostReceived now e] ∧
      (s.events.length ≤ 198 →
        (addPostEvent now today e (addPostEvent now today e s)).events.length =
          s.events.length + 2) ∧
      (addPostEvent now today e (addPostEvent now today e s)).stats.get
          (today, e.personaId) =
        some (postStep e (postStep e
          ((s.stats.get (today, e.personaId)).getD emptyPostStats)))) := by
  constructor
  · intro e s hp ha
    have hroute : ∀ (t : WarmupStore), warmupLogPOST now today e t =
        (.success, addEvent now today e t) := by
      intro t
      unfold warmupLogPOST
      rw [if_neg (by simp [hp, ha])]
    refine ⟨hroute s, hroute _, ?_, ?_, ?_⟩
    · simp only [addEvent_events, MAX_EVENTS]
      simp [List.take_take]
    · intro hlen
      simp only [addEvent_events, MAX_EVENTS, List.length_take,
        List.length_cons]
      omega
    · rw [get_addEvent_self, get_addEvent_self]
      simp
  · intro e s hp ha
    have hne : e.action ≠ "" := by
      intro h
      rw [h] at ha
      simp [validPostActions] at ha
    have hroute : ∀ (t : PostStore), postLogPOST now today e t =
        (.success, addPostEvent now today e t) := by
      intro t
      unfold postLogPOST
      rw [if_neg (by simp [hp, hne]), if_neg (by simpa using ha)]
    refine ⟨hroute s, hroute _, ?_, ?_, ?_⟩
    · simp only [addPostEvent_events, MAX_POST_EVENTS]
      simp [List.take_take]
    · intro hlen
      simp only [addPostEvent_events, MAX_POST_EVENTS, List.length_take,
        List.length_cons]
      omega
    · rw [get_addPostEvent_self, get_addPostEvent_self]
      simp

/-- Witness for C7: a duplicated `like` for `green` and a duplicated
`post_scheduled` for `blue`, each starting from the empty store. -/
theorem claim_C7_witness :
    ((mkWarmupEvent 1 "green" "like").profileId ≠ "" ∧
     (mkWarmupEvent 1 "green" "like").action ≠ "" ∧
     (addEvent 5 "2026-01-01" (mkWarmupEvent 1 "green" "like")
        (addEvent 5 "2026-01-01" (mkWarmupEvent 1 "green" "like")
          emptyWarmupStore)).stats.get ("2026-01-01", "green") =
      some (warmupStep (mkWarmupEvent 1 "green" "like")
        (warmupStep (mkWarmupEvent 1 "green" "like")
          ((emptyWarmupStore.stats.get ("2026-01-01", "green")).getD
            emptyProfileStats)))) ∧
    ((mkPostEvent 1 "blue" "post_scheduled").personaId ≠ "" ∧
     (mkPostEvent 1 "blue" "post_scheduled").action ∈ validPostActions ∧
     (addPostEvent 5 "2026-01-01" (mkPostEvent 1 "blue" "post_scheduled")
        (addPostEvent 5 "2026-01-01" (mkPostEvent 1 "blue" "post_scheduled")
          emptyPostStore)).stats.get ("2026-01-01", "blue") =
      some (postStep (mkPostEvent 1 "blue" "post_scheduled")
        (postStep (mkPostEvent 1 "blue" "post_scheduled")
          ((emptyPostStore.stats.get ("2026-01-01", "blue")).getD
            emptyPostStats)))) :=
  ⟨⟨by decide, by decide,
    (((claim_C7_no_deduplication 5 "2026-01-01").1
      (mkWarmupEvent 1 "green" "like") emptyWarmupStore (by decide)
      (by decide)).2.2.2.2)⟩,
   ⟨by decide, by decide,
    (((claim_C7_no_deduplication 5 "2026-01-01").2
      (mkPostEvent 1 "blue" "post_scheduled") emptyPostStore (by decide)
      (by decide)).2.2.2.2)⟩⟩

/-- C8: for every event accepted on either stream, the stored entry's
`receivedAt` is the server-assigned arrival time, set unconditionally — any
client-supplied `receivedAt` is overwritten — while the client-supplied
`timestamp` is preserved, and the stored entry is the newest log entry. -/
theorem claim_C8_receivedAt_stamped (now : Int) (today : String) :
    (∀ (e : ActivityEvent) (prior : Option Int),
      stampReceived now { e with receivedAt := prior } = stampReceived now e ∧
      (stampReceived now e).receivedAt = some now ∧
      (stampReceived now e).timestamp = e.timestamp) ∧
    (∀ (e : ActivityEvent) (s : WarmupStore),
      (addEvent now today e s).events.head? = some (stampReceived now e)) ∧
    (∀ (e : PostEvent) (prior : Option Int),
      stampPostReceived now { e with receivedAt := prior } =
        stampPostReceived now e ∧
      (stampPostReceived now e).receivedAt = some now ∧
      (stampPostReceived now e).timestamp = e.timestamp) ∧
    (∀ (e : PostEvent) (s : PostStore),
      (addPostEvent now today e s).events.head? =
        some (stampPostReceived now e)) := by
  refine ⟨fun e prior => ⟨rfl, rfl, rfl⟩, ?_, fun e prior => ⟨rfl, rfl, rfl⟩, ?_⟩
  · intro e s
    rw [addEvent_events]
    simp [List.head?_take, MAX_EVENTS]
  · intro e s
    rw [addPostEvent_events]
    simp [List.head?_take, MAX_POST_EVENTS]

/-- C9: clearing a stream for the current date leaves no counter record for
that date and an empty event log — a subsequent `allForDate` returns the
empty mapping and a subsequent `recent` returns the empty sequence — and the
response reports the number of counter-record keys removed. -/
theorem claim_C9_clear_empties_stream (today : String) :
    (∀ (s : WarmupStore) (limit : Nat),
      getStatsForDate (clearWarmup today s).2.stats today = [] ∧
      getRecentEvents limit (clearWarmup today s).2 = [] ∧
      (clearWarmup today s).1 =
        (s.stats.filter (fun p => p.1.1 = today)).length) ∧
    (∀ (s : PostStore) (limit : Nat),
      getStatsForDate (clearPosts today s).2.stats today = [] ∧
      getRecentPostEvents limit (clearPosts today s).2 = [] ∧
      (clearPosts today s).1 =
        (s.stats.filter (fun p => p.1.1 = today)).length) := by
  constructor
  · intro s limit
    refine ⟨?_, ?_, rfl⟩
    · simp only [getStatsForDate, clearWarmup]
      rw [List.filter_filter]
      simp
    · simp [getRecentEvents, clearWarmup]
  · intro s limit
    refine ⟨?_, ?_, rfl⟩
    · simp only [getStatsForDate, clearPosts]
      rw [List.filter_filter]
      simp
    · simp [getRecentPostEvents, clearPosts]

/-- C10: on the warmup stream an event whose action is any non-empty string —
also one outside the warmup enumeration, such as `foobar` — is accepted with
a success response, appended to the log, and creates or updates the profile's
record with `lastActivity` set to the event's timestamp while every numeric
counter is left unchanged; only presence of `profileId` and `action` is
checked, never membership in the enumeration. -/
theorem claim_C10_warmup_accepts_unknown_actions (now : Int) (today : String)
    (e : ActivityEvent) (s : WarmupStore)
    (hp : e.profileId ≠ "") (ha : e.action ≠ "")
    (hnot : e.action ∉ ["like", "bookmark", "search", "explore",
      "video_watch", "session_start"]) :
    warmupLogPOST now today e s = (.success, addEvent now today e s) ∧
    (addEvent now today e s).events.head? = some (stampReceived now e) ∧
    (addEvent now today e s).stats.get (today, e.profileId) =
      some { (s.stats.get (today, e.profileId)).getD emptyProfileStats with
        lastActivity := some e.timestamp,
        username := if truthy e.username then e.username
          else ((s.stats.get (today, e.profileId)).getD
            emptyProfileStats).username } := by
  refine ⟨?_, ?_, ?_⟩
  · unfold warmupLogPOST
    rw [if_neg (by simp [hp, ha])]
  · rw [addEvent_events]
    simp [List.head?_take, MAX_EVENTS]
  · rw [get_addEvent_self]
    unfold warmupStep
    rw [applyWarmupAction_other _ _ hnot]

/-- Witness for C10: a `foobar` event for `green` on the empty store is
accepted and counts nothing. -/
theorem claim_C10_witness :
    (mkWarmupEvent 3 "green" "foobar").profileId ≠ "" ∧
    (mkWarmupEvent 3 "green" "foobar").action ≠ "" ∧
    (mkWarmupEvent 3 "green" "foobar").action ∉ ["like", "bookmark", "search",
      "explore", "video_watch", "session_start"] ∧
    (warmupLogPOST 8 "2026-01-01" (mkWarmupEvent 3 "green" "foobar")
        emptyWarmupStore =
      (.success, addEvent 8 "2026-01-01" (mkWarmupEvent 3 "green" "foobar")
        emptyWarmupStore) ∧
    (addEvent 8 "2026-01-01" (mkWarmupEvent 3 "green" "foobar")
        emptyWarmupStore).events.head? =
      some (stampReceived 8 (mkWarmupEvent 3 "green" "foobar")) ∧
    (addEvent 8 "2026-01-01" (mkWarmupEvent 3 "green" "foobar")
        emptyWarmupStore).stats.get ("2026-01-01", "green") =
      some { (emptyWarmupStore.stats.get ("2026-01-01", "green")).getD
          emptyProfileStats with
        lastActivity := some (mkWarmupEvent 3 "green" "foobar").timestamp,
        username := if truthy (mkWarmupEvent 3 "green" "foobar").username
          then (mkWarmupEvent 3 "green" "foobar").username
          else ((emptyWarmupStore.stats.get ("2026-01-01", "green")).getD
            emptyProfileStats).username }) :=
  ⟨by decide, by decide, by decide,
   claim_C10_warmup_accepts_unknown_actions 8 "2026-01-01"
     (mkWarmupEvent 3 "green" "foobar") emptyWarmupStore (by decide)
     (by decide) (by decide)⟩

/-! ## Query ordering and totals -/

theorem sorted_sortByTotalDesc (l : List PersonaPostStats) :
    List.Pairwise (fun a b => personaTotal b ≤ personaTotal a)
      (sortByTotalDesc l) := by
  haveI : IsTotal PersonaPostStats (fun a b => personaTotal b ≤ personaTotal a) :=
    ⟨fun a b => le_total (personaTotal b) (personaTotal a)⟩
  haveI : IsTrans PersonaPostStats (fun a b => personaTotal b ≤ personaTotal a) :=
    ⟨fun a b c h1 h2 => le_trans h2 h1⟩
  exact List.sorted_insertionSort _ l

/-- Counterexample for C5: the claim asserts that both streams' today
responses are ordered by total activity descending, but the warmup query
applies no ordering — on a store whose enumeration is ascending by total
(profile `a` with 1 like listed before profile `b` with 2), the profiles
array is not descending. -/
theorem claim_C5_counterexample :
    ¬ List.Pairwise (fun p q => warmupRecordTotal q.2 ≤ warmupRecordTotal p.2)
      (warmupTodayGET "2026-01-01" c5Store).profiles := by
  decide

/-- C5 as amended: the post stream's today query orders personas by total
activity (`posted + scheduled + failed`) descending; the warmup stream's
today query applies no ordering at all — its profiles mapping is returned in
the store's enumeration order, which carries no activity-ordering
guarantee. -/
theorem claim_C5_amended_ordering (today : String) :
    (∀ (s : PostStore),
      List.Pairwise (fun a b => personaTotal b ≤ personaTotal a)
        (postsTodayGET today s).personas) ∧
    (∀ (s : WarmupStore),
      (warmupTodayGET today s).profiles = getStatsForDate s.stats today) :=
  ⟨fun s => sorted_sortByTotalDesc _, fun s => rfl⟩

theorem totalsFold_scheduled (l : List (String × PostStats)) (t : PostTotals) :
    (totalsFold l t).scheduled =
      t.scheduled + (l.map (fun p => p.2.scheduled)).sum := by
  induction l generalizing t with
  | nil => simp [totalsFold]
  | cons p l ih =>
    simp only [totalsFold, List.foldl_cons, List.map_cons, List.sum_cons] at ih ⊢
    rw [ih]
    simp
    ring

theorem totalsFold_posted (l : List (String × PostStats)) (t : PostTotals) :
    (totalsFold l t).posted = t.posted + (l.map (fun p => p.2.posted)).sum := by
  induction l generalizing t with
  | nil => simp [totalsFold]
  | cons p l ih =>
    simp only [totalsFold, List.foldl_cons, List.map_cons, List.sum_cons] at ih ⊢
    rw [ih]
    simp
    ring

theorem totalsFold_failed (l : List (String × PostStats)) (t : PostTotals) :
    (totalsFold l t).failed = t.failed + (l.map (fun p => p.2.failed)).sum := by
  induction l generalizing t with
  | nil => simp [totalsFold]
  | cons p l ih =>
    simp only [totalsFold, List.foldl_cons, List.map_cons, List.sum_cons] at ih ⊢
    rw [ih]
    simp
    ring

/-- Counterexample for C6: the claim asserts that both streams' today
responses carry a totals object; on a store holding one `like` for `green`
(whose claimed totals would be `likes = 1`), the warmup response JSON has
no `totals` field at all. -/
theorem claim_C6_counterexample :
    (warmupTodayJson "2026-01-01"
      (addEvent 0 "2026-01-01" (mkWarmupEvent 1 "green" "like")
        emptyWarmupStore)).lookup "totals" = none ∧
    (warmupTodayJson "2026-01-01"
      (addEvent 0 "2026-01-01" (mkWarmupEvent 1 "green" "like")
        emptyWarmupStore)).lookup "date" = some (.str "2026-01-01") :=
  ⟨rfl, rfl⟩

/-- C6 as amended: the post stream's today response carries the current
date, a totals object summing each counter category over all personas with a
record for the date, the persona summaries, and the recent raw events
newest-first (a prefix of the newest-first log); the warmup stream's
response carries the date, the per-profile records, and the recent events,
but no totals object — warmup totals are computed client-side. -/
theorem claim_C6_amended_today_response (today : String) :
    (∀ (s : PostStore),
      (postsTodayGET today s).date = today ∧
      (postsTodayGET today s).totals.scheduled =
        ((getStatsForDate s.stats today).map (fun p => p.2.scheduled)).sum ∧
      (postsTodayGET today s).totals.posted =
        ((getStatsForDate s.stats today).map (fun p => p.2.posted)).sum ∧
      (postsTodayGET today s).totals.failed =
        ((getStatsForDate s.stats today).map (fun p => p.2.failed)).sum ∧
      (postsTodayGET today s).recentEvents = s.events.take 50) ∧
    (∀ (s : WarmupStore),
      (warmupTodayJson today s).lookup "totals" = none ∧
      (warmupTodayJson today s).lookup "date" = some (.str today) ∧
      (warmupTodayGET today s).date = today ∧
      (warmupTodayGET today s).profiles = getStatsForDate s.stats today ∧
      (warmupTodayGET today s).recentEvents = s.events.take 50) := by
  constructor
  · intro s
    refine ⟨rfl, ?_, ?_, ?_, rfl⟩
    · rw [show (postsTodayGET today s).totals =
        totalsFold (getStatsForDate s.stats today)
          { scheduled := 0, posted := 0, failed := 0 } from rfl]
      rw [totalsFold_scheduled]
      simp
    · rw [show (postsTodayGET today s).totals =
        totalsFold (getStatsForDate s.stats today)
          { scheduled := 0, posted := 0, failed := 0 } from rfl]
      rw [totalsFold_posted]
      simp
    · rw [show (postsTodayGET today s).totals =
        totalsFold (getStatsForDate s.stats today)
          { scheduled := 0, posted := 0, failed := 0 } from rfl]
      rw [totalsFold_failed]
      simp
  · intro s
    exact ⟨rfl, rfl, rfl, rfl, rfl⟩
